import Mathlib

/-!
Verification of the client-side proctoring monitor of the
AI-Exam-Proctoring-System repository.

The development shallowly embeds two parts of the source:

* the exam page (`ExamContent` in `src/lib/api.ts`): the
  `terminateExam` state machine, the `addAlert` alert bus, the
  visibility / blur / fullscreen event handlers, the countdown timer
  tick, and the multi-tab detection effect built on the shared
  `localStorage` marker and the `BroadcastChannel` presence messages;

* the camera monitor (`captureAndAnalyze` in
  `src/components/CameraFeed.tsx`): the per-tick analysis pipeline with
  its darkness / occlusion / blur / no-face / gaze accumulators, the
  face-identity tracking, and the early-return chain of violation
  checks.

Per-frame image statistics (luminance mean, standard deviation, dark
ratio, Laplacian variance, region luminance ratios) are floating-point
computations on pixel data; each tick of the embedding takes the
boolean outcome of the corresponding threshold comparison as input, and
the accumulator and control-flow logic is translated exactly.
-/

/-- An alert entry as built at the `addAlert` call sites of the exam
page (timestamp and the display id are irrelevant to the properties and
omitted). -/
structure Alert where
  type : String
  message : String
  severity : String
deriving DecidableEq

/-- Observable state of the exam page (`ExamContent`): the
`examTerminated` flag, the reason recorded at the single
ACTIVE-to-TERMINATED transition (the `reason` argument of the
`terminateExam` call, surfaced in the `exam_terminated` alert message
and the blocking dialog), the alert display log, the blocking dialogs
shown via `alert(...)`, the number of `router.push` redirects, the
`tabSwitches` counter, the countdown `timeLeft`, and the queued
immediate-stop dispatch scheduled by `addAlert`. -/
structure ExamState where
  examTerminated : Bool
  terminationReason : Option String
  alerts : List Alert
  dialogs : List String
  redirects : Nat
  tabSwitches : Nat
  timeLeft : Nat
  pendingStop : Bool
deriving DecidableEq

/-- State of the exam page when `ExamContent` mounts. -/
def initialExamState : ExamState :=
  { examTerminated := false
    terminationReason := none
    alerts := []
    dialogs := []
    redirects := 0
    tabSwitches := 0
    timeLeft := 3600
    pendingStop := false }

/-- The `immediateStopTypes` set hardcoded in `addAlert`. -/
def immediateStopTypes : List String :=
  ["multiple_faces", "phone_detected", "recording_detected"]

/-- The alert bus `addAlert`: appends the alert for display; when the
type is in the immediate-stop set it additionally defaults an absent
severity to `error` and schedules a zero-delay dispatch of a window
`blur` event, modelled by the `pendingStop` flag. The 5-second display
expiry only removes entries from the UI and is not modelled. -/
def addAlert (s : ExamState) (a : Alert) : ExamState :=
  if immediateStopTypes.contains a.type then
    { s with
      alerts := s.alerts ++ [{ a with severity := if a.severity = "" then "error" else a.severity }]
      pendingStop := true }
  else
    { s with alerts := s.alerts ++ [a] }

/-- The state machine transition `terminateExam`: guarded on
`examTerminated`; on the first call it
records the reason, appends the `exam_terminated` error alert, shows
the blocking dialog and redirects out of the exam view
(`router.push`). -/
def terminateExam (s : ExamState) (reason : String) : ExamState :=
  if s.examTerminated then s
  else
    let s1 := { s with examTerminated := true, terminationReason := some reason }
    let s2 := addAlert s1
      { type := "exam_terminated"
        message := "Exam terminated: " ++ reason
        severity := "error" }
    { s2 with
      dialogs := s2.dialogs ++ ["Exam terminated: " ++ reason]
      redirects := s2.redirects + 1 }

/-- The `visibilitychange` listener: when the document becomes hidden it
counts the tab switch, records a warning alert and terminates. -/
def handleVisibilityChange (s : ExamState) (documentHidden : Bool) : ExamState :=
  if documentHidden then
    let n := s.tabSwitches + 1
    let s1 := { s with tabSwitches := n }
    let s2 := addAlert s1
      { type := "tab_switch"
        message := "Tab switch detected! (" ++ toString n ++ " times)"
        severity := "warning" }
    terminateExam s2 "Left the exam tab (visibility change)"
  else s

/-- The window `blur` listener: error alert followed by termination. -/
def handleBlur (s : ExamState) : ExamState :=
  let s1 := addAlert s
    { type := "blur"
      message := "Exam tab lost focus - potential cheating attempt!"
      severity := "error" }
  terminateExam s1 "Window lost focus"

/-- The `fullscreenchange` listener: leaving fullscreen records one
warning alert and nothing else. -/
def handleFullscreenChange (s : ExamState) (fullscreenElement : Bool) : ExamState :=
  if fullscreenElement then s
  else
    addAlert s
      { type := "fullscreen_exit"
        message := "Fullscreen mode exited - potential cheating attempt!"
        severity := "warning" }

/-- One 1 Hz tick of the countdown timer effect. -/
def timerTick (s : ExamState) : ExamState :=
  if s.timeLeft ≤ 1 then
    { s with
      timeLeft := 0
      dialogs := s.dialogs ++ ["Time\x27s up! Your exam has been submitted."] }
  else { s with timeLeft := s.timeLeft - 1 }

/-- Runs the zero-delay callback queued by `addAlert` for an
immediate-stop alert: it dispatches a window `blur` event, which runs
`handleBlur`. -/
def processPendingStop (s : ExamState) : ExamState :=
  if s.pendingStop then handleBlur { s with pendingStop := false } else s

/-! Multi-tab detection (the mount effect of the exam page): a shared
`localStorage` marker under the key `exam_active_instance_id`, a
`storage` event listener, and a `BroadcastChannel` presence
announcement. -/

/-- The `localStorage` key of the single-active-instance marker. -/
def lockKey : String := "exam_active_instance_id"

/-- Result of running the multi-tab mount effect in one tab:
the new exam state, the new marker value, whether the effect got as far
as registering the `storage` listener and opening the broadcast channel
(and scheduling the 100 ms presence announcement), and whether the
marker value was actually changed by this tab (only a changed value
fires `storage` events in other tabs). -/
structure MountResult where
  exam : ExamState
  store : Option String
  registered : Bool
  wrote : Bool
deriving DecidableEq

/-- The multi-tab mount effect: a no-op when already terminated;
otherwise it reads the marker, terminates on a foreign owner id
(before claiming, before registering any listener and before any
presence broadcast), and otherwise claims the marker and registers the
listeners. -/
def mountMultiTab (myId : String) (e : ExamState) (store : Option String) : MountResult :=
  if e.examTerminated then
    { exam := e, store := store, registered := false, wrote := false }
  else
    match store with
    | some existing =>
      if existing ≠ myId then
        { exam := terminateExam e "Multiple exam tabs detected (storage lock)"
          store := store, registered := false, wrote := false }
      else
        { exam := e, store := some myId, registered := true, wrote := false }
    | none =>
      { exam := e, store := some myId, registered := true, wrote := true }

/-- The `storage` event listener `onStorage`: a foreign non-null new
value under the lock key terminates the session. -/
def onStorageEvent (myId : String) (e : ExamState) (key : String)
    (newValue : Option String) : ExamState :=
  match newValue with
  | some v => if key = lockKey ∧ v ≠ myId then terminateExam e "Multiple exam tabs detected" else e
  | none => e

/-- The broadcast-channel message listener: a presence message carrying
a foreign id terminates the session. -/
def onPresenceMessage (myId : String) (e : ExamState) (msgType : String)
    (msgId : Option String) : ExamState :=
  match msgId with
  | some i =>
    if msgType = "presence" ∧ i ≠ myId then
      terminateExam e "Multiple exam tabs detected (broadcast)"
    else e
  | none => e

/-- One tab of the two-tab world: its exam state and whether its
storage listener and broadcast channel are registered. -/
structure TabView where
  exam : ExamState
  listening : Bool
deriving DecidableEq

/-- The shared world of the two-tab scenario. -/
structure TwoTabs where
  store : Option String
  tabA : TabView
  tabB : TabView
deriving DecidableEq

/-- Scenario C of the spec: tab A opens the exam first and runs its
mount effect; its scheduled presence announcement fires; then tab B
opens the exam and runs its mount effect. Storage events and presence
broadcasts are delivered to the other tab exactly when the marker value
changed (respectively the announcement was scheduled) and the other tab
has registered its listeners. -/
def scenarioC (idA idB : String) : TwoTabs :=
  let rA := mountMultiTab idA initialExamState none
  let a1 : TabView := { exam := rA.exam, listening := rA.registered }
  let b0 : TabView := { exam := initialExamState, listening := false }
  let b1 := if rA.wrote ∧ b0.listening then
      { b0 with exam := onStorageEvent idB b0.exam lockKey rA.store } else b0
  let b2 := if rA.registered ∧ b1.listening then
      { b1 with exam := onPresenceMessage idB b1.exam "presence" (some idA) } else b1
  let rB := mountMultiTab idB b2.exam rA.store
  let b3 : TabView := { exam := rB.exam, listening := rB.registered }
  let a2 := if rB.wrote ∧ a1.listening then
      { a1 with exam := onStorageEvent idA a1.exam lockKey rB.store } else a1
  let a3 := if rB.registered ∧ a2.listening then
      { a2 with exam := onPresenceMessage idA a2.exam "presence" (some idB) } else a2
  { store := rB.store, tabA := a3, tabB := b3 }

/-! Camera monitor (`captureAndAnalyze` in CameraFeed.tsx). The
analysis interval is 1000 ms, so `sustainedSeconds` equals the
consecutive-frame count; the 1.5 s occlusion threshold is expressed as
`3 ≤ 2 * count`. Each per-frame image statistic enters a tick as the
boolean outcome of its threshold comparison. -/

/-- A violation event as passed to the `onViolation` callback
(the `details` payload is irrelevant to the properties and omitted). -/
structure Violation where
  type : String
  message : String
deriving DecidableEq

def cameraCoveredViol : Violation :=
  { type := "camera_covered", message := "Camera appears covered or too dark" }

def eyesOccludedLocalViol : Violation :=
  { type := "eyes_occluded_local", message := "Eyes likely occluded/not visible" }

def eyesOccludedSimpleViol : Violation :=
  { type := "eyes_occluded_simple", message := "Eyes likely occluded/not visible" }

def backgroundViol : Violation :=
  { type := "background_violation", message := "Background movement or virtual background detected" }

def multipleFacesViol : Violation :=
  { type := "multiple_faces", message := "Multiple faces detected" }

def phoneDetectedViol : Violation :=
  { type := "phone_detected", message := "Phone detected in camera view" }

def faceNotVisibleStartViol : Violation :=
  { type := "face_not_visible_at_start", message := "Face not clearly visible at exam start" }

def faceBlurredStartViol : Violation :=
  { type := "face_blurred_start", message := "Face too blurred at exam start" }

def faceSwitchedViol : Violation :=
  { type := "face_switched", message := "Different face detected — exam terminated" }

def faceMissingViol : Violation :=
  { type := "face_missing", message := "Face not visible for too long" }

def gazeAwayViol : Violation :=
  { type := "gaze_away_prolonged", message := "Prolonged gaze away from screen" }

def faceOrEyesOccludedViol : Violation :=
  { type := "face_or_eyes_occluded", message := "Face or eyes are occluded/not visible" }

/-- The mutable refs of the CameraFeed component that survive between
analysis ticks. -/
structure MonitorState where
  consecutiveGazeAway : Nat
  startFrames : Nat
  consecutiveDarkFrames : Nat
  consecutiveNoFace : Nat
  consecutiveBlurFrames : Nat
  initialFaceId : Option String
  lastFaceId : Option String
  consecutiveOcclusion : Nat
deriving DecidableEq

/-- Monitor state at mount: all counters zero, no face ids seen. -/
def initMonitor : MonitorState :=
  { consecutiveGazeAway := 0
    startFrames := 0
    consecutiveDarkFrames := 0
    consecutiveNoFace := 0
    consecutiveBlurFrames := 0
    initialFaceId := none
    lastFaceId := none
    consecutiveOcclusion := 0 }

/-- A successful response of the external analysis call:
`result.labels` (defaulted to the empty list when absent) and the
identity signature `String(details.face_id or details.face_signature)`
when one of those fields is truthy. -/
structure AnalysisResult where
  labels : List String
  faceId : Option String
deriving DecidableEq

/-- Input of one analysis tick. `darkCond` is the darkness predicate
(mean below 20 with standard deviation below 12, or dark-pixel ratio
above 0.85) of the captured frame; `analysis` is `none` when the
`analyzeWithAI` call throws (the outer catch swallows the error);
`localOcc` is the FaceDetector occlusion ratio comparison
(eye-band mean over lower-band mean below 0.45), `none` when no usable
face box is found or the detector throws; `simpleOcc` is the
whole-frame ratio comparison (top mean over lower mean below 0.5 with a
positive lower mean), `none` when that block throws; `blurCond` is the
Laplacian-variance comparison (below 55), `none` when the downscale
context is unavailable or the block throws. -/
structure TickInput where
  darkCond : Bool
  analysis : Option AnalysisResult
  localOcc : Option Bool
  simpleOcc : Option Bool
  blurCond : Option Bool
deriving DecidableEq

/-- Chains one check onto the result of a previous one, propagating an
early `return`: when the previous check emitted a violation the rest of
the tick body is skipped. -/
def vbind (r : MonitorState × Option Violation)
    (f : MonitorState → MonitorState × Option Violation) :
    MonitorState × Option Violation :=
  match r with
  | (s, some v) => (s, some v)
  | (s, none) => f s

/-- Covered-camera heuristic: the consecutive-dark-frame counter is
incremented or reset by the frame predicate, and `camera_covered` is
emitted when the sustained time reaches 2 s. The counter is not touched
again after the emission (the source returns immediately). -/
def darkHeuristic (darkCond : Bool) (s : MonitorState) : MonitorState × Option Violation :=
  let s1 := { s with consecutiveDarkFrames := if darkCond then s.consecutiveDarkFrames + 1 else 0 }
  if 2 ≤ s1.consecutiveDarkFrames then (s1, some cameraCoveredViol) else (s1, none)

/-- FaceDetector-based local eyes-occlusion fallback (threshold
1.5 s). -/
def localOcclusionFD (localOcc : Option Bool) (s : MonitorState) :
    MonitorState × Option Violation :=
  match localOcc with
  | none => (s, none)
  | some cond =>
    let s1 := { s with consecutiveOcclusion := if cond then s.consecutiveOcclusion + 1 else 0 }
    if 3 ≤ 2 * s1.consecutiveOcclusion then (s1, some eyesOccludedLocalViol) else (s1, none)

/-- Whole-frame local eyes-occlusion fallback used when no FaceDetector
is available (threshold 1.5 s). -/
def localOcclusionSimple (simpleOcc : Option Bool) (s : MonitorState) :
    MonitorState × Option Violation :=
  match simpleOcc with
  | none => (s, none)
  | some cond =>
    let s1 := { s with consecutiveOcclusion := if cond then s.consecutiveOcclusion + 1 else 0 }
    if 3 ≤ 2 * s1.consecutiveOcclusion then (s1, some eyesOccludedSimpleViol) else (s1, none)

/-- Whether the pattern is an initial segment of the text
(on character lists, so that it evaluates by kernel reduction). -/
def charsStartWith : List Char → List Char → Bool
  | [], _ => true
  | _ :: _, [] => false
  | p :: ps, c :: cs => p == c && charsStartWith ps cs

/-- Whether the pattern occurs contiguously inside the text. -/
def charsContainSeq (pat : List Char) : List Char → Bool
  | [] => pat.isEmpty
  | c :: cs => charsStartWith pat (c :: cs) || charsContainSeq pat cs

/-- Whether some label mentions eyes (the source tests
`l.includes(...)` with the substring eyes). -/
def hasEyesLabel (labels : List String) : Bool :=
  labels.any fun l => charsContainSeq "eyes".data l.data

/-- The two local occlusion fallback blocks, each guarded by the
absence of an eyes label and by the availability of the
FaceDetector. -/
def occlusionFallback (faceDetectorAvailable : Bool) (labels : List String)
    (inp : TickInput) (s : MonitorState) : MonitorState × Option Violation :=
  if hasEyesLabel labels then (s, none)
  else if faceDetectorAvailable then localOcclusionFD inp.localOcc s
  else localOcclusionSimple inp.simpleOcc s

/-- Background / virtual-background detection. -/
def backgroundCheck (labels : List String) (s : MonitorState) :
    MonitorState × Option Violation :=
  if labels.contains "background_motion" || labels.contains "animated_background" ||
      labels.contains "virtual_background" then
    (s, some backgroundViol)
  else (s, none)

/-- Immediate multiple-faces violation. -/
def multipleFacesCheck (labels : List String) (s : MonitorState) :
    MonitorState × Option Violation :=
  if labels.contains "multiple_faces" then (s, some multipleFacesViol) else (s, none)

/-- Immediate phone-detected violation. -/
def phoneCheck (labels : List String) (s : MonitorState) :
    MonitorState × Option Violation :=
  if labels.contains "phone_detected" || labels.contains "mobile_phone" then
    (s, some phoneDetectedViol)
  else (s, none)

/-- Length of the strict start window in seconds. -/
def startEnforcementSeconds : Nat := 6

/-- Start-of-exam enforcement: inside the start window the tick counter
advances and a single frame with a covered or absent face fires
immediately; otherwise the Laplacian blur accumulator runs with a 2 s
threshold. -/
def startWindowCheck (labels : List String) (blurCond : Option Bool) (s : MonitorState) :
    MonitorState × Option Violation :=
  if s.startFrames < startEnforcementSeconds then
    let s1 := { s with startFrames := s.startFrames + 1 }
    if labels.contains "face_covered" || labels.contains "no_face" ||
        !(labels.contains "face_present") then
      (s1, some faceNotVisibleStartViol)
    else
      match blurCond with
      | none => (s1, none)
      | some b =>
        let s2 := { s1 with consecutiveBlurFrames := if b then s1.consecutiveBlurFrames + 1 else 0 }
        if 2 ≤ s2.consecutiveBlurFrames then (s2, some faceBlurredStartViol) else (s2, none)
  else (s, none)

/-- Face-switch detection on the analyzer-provided identity signature:
the initial id is written only when still unset; the violation fires
when a previous id exists and the current id differs from both the
previous id and the (possibly just set) initial id; otherwise the
previous id is updated. On a fire the source returns before updating
the previous id. -/
def faceIdCheck (faceId : Option String) (s : MonitorState) :
    MonitorState × Option Violation :=
  match faceId with
  | none => (s, none)
  | some currentId =>
    let s1 := if s.initialFaceId = none then { s with initialFaceId := some currentId } else s
    match s1.lastFaceId with
    | some lastId =>
      if currentId ≠ lastId ∧ s1.initialFaceId ≠ some currentId then (s1, some faceSwitchedViol)
      else ({ s1 with lastFaceId := some currentId }, none)
    | none => ({ s1 with lastFaceId := some currentId }, none)

/-- Continuous no-face enforcement (threshold 5 s): the counter
advances whenever `no_face` is present or `face_present` is absent. -/
def noFaceCheck (labels : List String) (s : MonitorState) :
    MonitorState × Option Violation :=
  let s1 := { s with consecutiveNoFace :=
    if labels.contains "no_face" || !(labels.contains "face_present") then
      s.consecutiveNoFace + 1
    else 0 }
  if 5 ≤ s1.consecutiveNoFace then (s1, some faceMissingViol) else (s1, none)

/-- Prolonged gaze-away accumulator (threshold 5 s). -/
def gazeCheck (labels : List String) (s : MonitorState) :
    MonitorState × Option Violation :=
  let s1 := { s with consecutiveGazeAway :=
    if labels.contains "gaze_away" || labels.contains "looking_away" then
      s.consecutiveGazeAway + 1
    else 0 }
  if 5 ≤ s1.consecutiveGazeAway then (s1, some gazeAwayViol) else (s1, none)

/-- The label set of the final eyes/face occlusion monitor. -/
def occlusionLabels : List String :=
  ["eyes_closed", "eyes_not_visible", "no_eyes", "eye_not_detected",
   "face_occluded", "face_covered", "mask", "sunglasses"]

/-- Label-based eyes/face occlusion accumulator (threshold 2 s). -/
def occlusionLabelCheck (labels : List String) (s : MonitorState) :
    MonitorState × Option Violation :=
  let hasOcclusion := labels.any fun l => occlusionLabels.contains l
  let s1 := { s with consecutiveOcclusion := if hasOcclusion then s.consecutiveOcclusion + 1 else 0 }
  if 2 ≤ s1.consecutiveOcclusion then (s1, some faceOrEyesOccludedViol) else (s1, none)

/-- One analysis tick of `captureAndAnalyze` (past the in-flight and
zero-dimension guards): the darkness heuristic runs first; a thrown
analysis call skips everything after it; otherwise the checks run in
source order, each early `return` cutting off the rest. -/
def captureAndAnalyze (faceDetectorAvailable : Bool) (s : MonitorState) (inp : TickInput) :
    MonitorState × Option Violation :=
  vbind (darkHeuristic inp.darkCond s) fun s =>
    match inp.analysis with
    | none => (s, none)
    | some res =>
      vbind (occlusionFallback faceDetectorAvailable res.labels inp s) fun s =>
      vbind (backgroundCheck res.labels s) fun s =>
      vbind (multipleFacesCheck res.labels s) fun s =>
      vbind (phoneCheck res.labels s) fun s =>
      vbind (startWindowCheck res.labels inp.blurCond s) fun s =>
      vbind (faceIdCheck res.faceId s) fun s =>
      vbind (noFaceCheck res.labels s) fun s =>
      vbind (gazeCheck res.labels s) fun s =>
      occlusionLabelCheck res.labels s

/-- Runs every tick of an input list regardless of emitted violations:
the behaviour of the CameraFeed analysis loop taken in isolation, with
an `onViolation` callback that does not stop the interval. -/
def ticksAll (fd : Bool) : MonitorState → List TickInput → MonitorState × List Violation
  | s, [] => (s, [])
  | s, inp :: rest =>
    match captureAndAnalyze fd s inp with
    | (s1, v) =>
      match ticksAll fd s1 rest with
      | (s2, vs) => (s2, v.toList ++ vs)

/-- Runs ticks as deployed: the exam page wires `onViolation` to
`terminateExam`, which redirects out of the exam view, unmounting the
component and clearing the analysis interval, so the first emitted
violation stops the loop and later ticks never analyze. -/
def ticksUntilViolation (fd : Bool) : MonitorState → List TickInput → MonitorState × List Violation
  | s, [] => (s, [])
  | s, inp :: rest =>
    match captureAndAnalyze fd s inp with
    | (s1, some v) => (s1, [v])
    | (s1, none) => ticksUntilViolation fd s1 rest

/-- A benign tick: bright frame, analyzer sees the face. -/
def faceOkInput : TickInput :=
  { darkCond := false
    analysis := some { labels := ["face_present"], faceId := none }
    localOcc := none
    simpleOcc := some false
    blurCond := some false }

/-- A tick whose analysis reports `no_face`. -/
def noFaceInput : TickInput :=
  { darkCond := false
    analysis := some { labels := ["no_face"], faceId := none }
    localOcc := none
    simpleOcc := some false
    blurCond := some false }

/-- A tick whose analysis call succeeds but returns no labels at all —
the empty response. -/
def emptyLabelsInput : TickInput :=
  { darkCond := false
    analysis := some { labels := [], faceId := none }
    localOcc := none
    simpleOcc := some false
    blurCond := some false }

/-- A tick with a dark frame on which the analysis call also throws. -/
def darkErrorInput : TickInput :=
  { darkCond := true
    analysis := none
    localOcc := none
    simpleOcc := none
    blurCond := none }

/-- A benign tick whose analyzer additionally reports an identity
signature. -/
def faceIdInput (id : String) : TickInput :=
  { darkCond := false
    analysis := some { labels := ["face_present"], faceId := some id }
    localOcc := none
    simpleOcc := some false
    blurCond := some false }

/-- Six benign ticks consuming the start window. -/
def startWindowPrelude : List TickInput := List.replicate 6 faceOkInput

/-- Scenario B of the spec: after the start window, six consecutive
1 Hz ticks each reporting `no_face`. -/
def scenarioBInputs : List TickInput := startWindowPrelude ++ List.replicate 6 noFaceInput

/-! Helper lemmas about the exam page operations. -/

theorem addAlert_examTerminated (s : ExamState) (a : Alert) :
    (addAlert s a).examTerminated = s.examTerminated := by
  unfold addAlert; split <;> rfl

theorem addAlert_terminationReason (s : ExamState) (a : Alert) :
    (addAlert s a).terminationReason = s.terminationReason := by
  unfold addAlert; split <;> rfl

theorem addAlert_redirects (s : ExamState) (a : Alert) :
    (addAlert s a).redirects = s.redirects := by
  unfold addAlert; split <;> rfl

theorem addAlert_pendingStop_true (s : ExamState) (a : Alert)
    (h : s.pendingStop = true) : (addAlert s a).pendingStop = true := by
  unfold addAlert; split
  · rfl
  · simpa using h

theorem terminateExam_terminates (s : ExamState) (r : String)
    (h : s.examTerminated = false) : (terminateExam s r).examTerminated = true := by
  unfold terminateExam
  rw [h]
  simp only [Bool.false_eq_true, if_false]
  rw [addAlert_examTerminated]

theorem terminateExam_reason (s : ExamState) (r : String)
    (h : s.examTerminated = false) :
    (terminateExam s r).terminationReason = some r := by
  unfold terminateExam
  rw [h]
  simp only [Bool.false_eq_true, if_false]
  rw [addAlert_terminationReason]

theorem addAlert_pendingStop_of_stop (s : ExamState) (a : Alert)
    (ha : immediateStopTypes.contains a.type = true) :
    (addAlert s a).pendingStop = true := by
  unfold addAlert
  rw [ha]
  simp

theorem processPendingStop_terminates (t : ExamState) (h1 : t.pendingStop = true)
    (h2 : t.examTerminated = false) : (processPendingStop t).examTerminated = true := by
  unfold processPendingStop
  rw [h1]
  simp only [if_true]
  unfold handleBlur
  apply terminateExam_terminates
  rw [addAlert_examTerminated]
  exact h2

/-! Theorems for the claims about the exam page state machine. -/

/-- C1. Termination is idempotent: once the session has transitioned
from ACTIVE to TERMINATED (`examTerminated = true`), any further
`terminateExam` call, whatever the triggering violation, returns the
state unchanged: the recorded reason is not overwritten, no second
`exam_terminated` alert is appended, no second dialog or redirect
occurs. -/
theorem terminateExam_idempotent (s : ExamState) (reason : String)
    (h : s.examTerminated = true) : terminateExam s reason = s := by
  unfold terminateExam
  rw [h]
  simp

/-- Witness for C1 at a concrete terminated state. -/
theorem terminateExam_idempotent_witness :
    terminateExam (terminateExam initialExamState "Window lost focus") "Developer tools opened" =
      terminateExam initialExamState "Window lost focus" :=
  terminateExam_idempotent (terminateExam initialExamState "Window lost focus")
    "Developer tools opened" (by decide)

/-- C6. A single visibility-change event with the document hidden, on an
ACTIVE session, immediately terminates the session and records exactly
the reason "Left the exam tab (visibility change)". -/
theorem visibilityChange_terminates (s : ExamState)
    (h : s.examTerminated = false) :
    (handleVisibilityChange s true).examTerminated = true ∧
    (handleVisibilityChange s true).terminationReason =
      some "Left the exam tab (visibility change)" := by
  unfold handleVisibilityChange
  simp only [if_true]
  constructor
  · apply terminateExam_terminates
    rw [addAlert_examTerminated]
    exact h
  · apply terminateExam_reason
    rw [addAlert_examTerminated]
    exact h

/-- Witness for C6 at the initial exam state. -/
theorem visibilityChange_terminates_witness :
    (handleVisibilityChange initialExamState true).examTerminated = true ∧
    (handleVisibilityChange initialExamState true).terminationReason =
      some "Left the exam tab (visibility change)" :=
  visibilityChange_terminates initialExamState (by decide)

/-- C9. A fullscreen-exit event on an ACTIVE session records exactly one
warning-severity alert and nothing else: the session stays ACTIVE, no
reason is recorded, no redirect happens, and no immediate-stop dispatch
is queued. -/
theorem fullscreenExit_warning_only (s : ExamState)
    (h : s.examTerminated = false) :
    (handleFullscreenChange s false).examTerminated = false ∧
    (handleFullscreenChange s false).alerts = s.alerts ++
      [{ type := "fullscreen_exit"
         message := "Fullscreen mode exited - potential cheating attempt!"
         severity := "warning" }] ∧
    (handleFullscreenChange s false).terminationReason = s.terminationReason ∧
    (handleFullscreenChange s false).redirects = s.redirects ∧
    (handleFullscreenChange s false).pendingStop = s.pendingStop := by
  have hmem : ¬ ("fullscreen_exit" ∈ immediateStopTypes) := by decide
  unfold handleFullscreenChange addAlert
  simp [hmem, h]

/-- Witness for C9 at the initial exam state. -/
theorem fullscreenExit_warning_only_witness :
    (handleFullscreenChange initialExamState false).examTerminated = false ∧
    (handleFullscreenChange initialExamState false).alerts = initialExamState.alerts ++
      [{ type := "fullscreen_exit"
         message := "Fullscreen mode exited - potential cheating attempt!"
         severity := "warning" }] ∧
    (handleFullscreenChange initialExamState false).terminationReason =
      initialExamState.terminationReason ∧
    (handleFullscreenChange initialExamState false).redirects = initialExamState.redirects ∧
    (handleFullscreenChange initialExamState false).pendingStop = initialExamState.pendingStop :=
  fullscreenExit_warning_only initialExamState (by decide)

/-- C10. When the countdown reaches zero the timer tick only shows the
time-is-up dialog and clamps `timeLeft` at 0: the session is not
terminated, no redirect occurs, no alert is appended, and no submission
of any kind is recorded (the tick touches no other field). -/
theorem timer_zero_no_auto_end (s : ExamState) (h : s.timeLeft ≤ 1) :
    (timerTick s).timeLeft = 0 ∧
    (timerTick s).dialogs = s.dialogs ++ ["Time\x27s up! Your exam has been submitted."] ∧
    (timerTick s).examTerminated = s.examTerminated ∧
    (timerTick s).terminationReason = s.terminationReason ∧
    (timerTick s).redirects = s.redirects ∧
    (timerTick s).alerts = s.alerts ∧
    (timerTick s).pendingStop = s.pendingStop := by
  unfold timerTick
  simp [h]

/-- Witness for C10 at a state whose countdown has run out. -/
theorem timer_zero_no_auto_end_witness :
    (timerTick { initialExamState with timeLeft := 1 }).timeLeft = 0 ∧
    (timerTick { initialExamState with timeLeft := 1 }).dialogs =
      ({ initialExamState with timeLeft := 1 } : ExamState).dialogs ++
        ["Time\x27s up! Your exam has been submitted."] ∧
    (timerTick { initialExamState with timeLeft := 1 }).examTerminated =
      ({ initialExamState with timeLeft := 1 } : ExamState).examTerminated ∧
    (timerTick { initialExamState with timeLeft := 1 }).terminationReason =
      ({ initialExamState with timeLeft := 1 } : ExamState).terminationReason ∧
    (timerTick { initialExamState with timeLeft := 1 }).redirects =
      ({ initialExamState with timeLeft := 1 } : ExamState).redirects ∧
    (timerTick { initialExamState with timeLeft := 1 }).alerts =
      ({ initialExamState with timeLeft := 1 } : ExamState).alerts ∧
    (timerTick { initialExamState with timeLeft := 1 }).pendingStop =
      ({ initialExamState with timeLeft := 1 } : ExamState).pendingStop :=
  timer_zero_no_auto_end { initialExamState with timeLeft := 1 } (by decide)

/-- C8. An event submitted to the alert bus whose kind is in the
immediate-stop set, with error severity, while the session is ACTIVE,
is appended for display and the single queued callback dispatched by
`addAlert` terminates the session; a later event of any lower severity
submitted before the callback runs does not cancel the queued
termination, so no immediate-stop event is merely displayed and
discarded. -/
theorem immediateStop_terminates (s : ExamState) (a b : Alert)
    (hs : s.examTerminated = false)
    (ha : immediateStopTypes.contains a.type = true)
    (hsev : a.severity = "error") :
    (addAlert s a).alerts = s.alerts ++ [a] ∧
    (processPendingStop (addAlert s a)).examTerminated = true ∧
    (processPendingStop (addAlert (addAlert s a) b)).examTerminated = true := by
  refine ⟨?_, ?_, ?_⟩
  · obtain ⟨ty, msg, sev⟩ := a
    simp only [Alert.severity] at hsev
    subst hsev
    unfold addAlert
    rw [ha]
    simp
  · apply processPendingStop_terminates
    · exact addAlert_pendingStop_of_stop s a ha
    · rw [addAlert_examTerminated]; exact hs
  · apply processPendingStop_terminates
    · exact addAlert_pendingStop_true _ _ (addAlert_pendingStop_of_stop s a ha)
    · rw [addAlert_examTerminated, addAlert_examTerminated]; exact hs

/-- Witness for C8: a `multiple_faces` error event on the fresh session,
followed by a later info event. -/
theorem immediateStop_terminates_witness :
    (addAlert initialExamState
        { type := "multiple_faces", message := "Multiple faces detected", severity := "error" }).alerts =
      initialExamState.alerts ++
        [{ type := "multiple_faces", message := "Multiple faces detected", severity := "error" }] ∧
    (processPendingStop (addAlert initialExamState
        { type := "multiple_faces", message := "Multiple faces detected", severity := "error" })).examTerminated = true ∧
    (processPendingStop (addAlert (addAlert initialExamState
        { type := "multiple_faces", message := "Multiple faces detected", severity := "error" })
        { type := "focus", message := "Exam tab focused", severity := "info" })).examTerminated = true :=
  immediateStop_terminates initialExamState
    { type := "multiple_faces", message := "Multiple faces detected", severity := "error" }
    { type := "focus", message := "Exam tab focused", severity := "info" }
    (by decide) (by decide) rfl

/-- C5 counterexample. In the two-tab scenario in which tab A opens the
exam and holds the marker and tab B opens afterwards, it is tab B that
terminates and tab A that remains ACTIVE, and tab B never opens a
broadcast channel, so tab A receives no foreign presence notification:
the claim that tab A terminates while tab B remains ACTIVE is false. -/
theorem multiTab_claim_counterexample :
    (scenarioC "tab-a" "tab-b").tabA.exam.examTerminated = false ∧
    (scenarioC "tab-a" "tab-b").tabB.exam.examTerminated = true ∧
    (scenarioC "tab-a" "tab-b").tabB.listening = false := by decide

/-- C5 amended: when tab B runs its mount effect while tab A already
holds the shared marker, the storage-lock check makes tab B terminate
immediately with reason "Multiple exam tabs detected (storage lock)",
without claiming the marker, registering listeners or broadcasting
presence; tab A keeps the marker and remains ACTIVE. -/
theorem multiTab_second_tab_terminates (idA idB : String) (h : idA ≠ idB) :
    (scenarioC idA idB).tabA.exam.examTerminated = false ∧
    (scenarioC idA idB).tabB.exam.examTerminated = true ∧
    (scenarioC idA idB).tabB.exam.terminationReason =
      some "Multiple exam tabs detected (storage lock)" ∧
    (scenarioC idA idB).tabB.listening = false ∧
    (scenarioC idA idB).store = some idA := by
  have hA : mountMultiTab idA initialExamState none =
      { exam := initialExamState, store := some idA, registered := true, wrote := true } := rfl
  have hB : mountMultiTab idB initialExamState (some idA) =
      { exam := terminateExam initialExamState "Multiple exam tabs detected (storage lock)"
        store := some idA, registered := false, wrote := false } := by
    unfold mountMultiTab
    rw [if_neg (by decide)]
    dsimp only
    rw [if_pos h]
  have hterm : (terminateExam initialExamState
      "Multiple exam tabs detected (storage lock)").examTerminated = true := by decide
  have hreason : (terminateExam initialExamState
      "Multiple exam tabs detected (storage lock)").terminationReason =
      some "Multiple exam tabs detected (storage lock)" := by decide
  have hinit : initialExamState.examTerminated = false := rfl
  simp only [scenarioC, hA, hB]
  simp [hA, hB, hterm, hreason, hinit]

/-- Witness for C5 (amended) at concrete distinct instance ids. -/
theorem multiTab_second_tab_terminates_witness :
    (scenarioC "id-a" "id-b").tabA.exam.examTerminated = false ∧
    (scenarioC "id-a" "id-b").tabB.exam.examTerminated = true ∧
    (scenarioC "id-a" "id-b").tabB.exam.terminationReason =
      some "Multiple exam tabs detected (storage lock)" ∧
    (scenarioC "id-a" "id-b").tabB.listening = false ∧
    (scenarioC "id-a" "id-b").store = some "id-a" :=
  multiTab_second_tab_terminates "id-a" "id-b" (by decide)


/-! Helper lemmas about the analysis tick. -/

theorem vbind_inv {P : MonitorState → Prop} (r : MonitorState × Option Violation)
    (f : MonitorState → MonitorState × Option Violation)
    (h1 : P r.1) (h2 : ∀ t, P t → P (f t).1) : P (vbind r f).1 := by
  obtain ⟨s, v⟩ := r
  cases v with
  | none => exact h2 s h1
  | some v => exact h1

theorem vbind_pure (r : MonitorState × Option Violation) :
    vbind r (fun s => (s, none)) = r := by
  obtain ⟨s, v⟩ := r
  cases v <;> rfl

theorem fst_ite_pair (P : Prop) [Decidable P] (a : MonitorState) (x y : Option Violation) :
    (if P then (a, x) else (a, y)).1 = a := by
  split <;> rfl

theorem darkHeuristic_initialFaceId (d : Bool) (s : MonitorState) :
    (darkHeuristic d s).1.initialFaceId = s.initialFaceId := by
  simp [darkHeuristic, fst_ite_pair]

theorem localOcclusionFD_initialFaceId (o : Option Bool) (s : MonitorState) :
    (localOcclusionFD o s).1.initialFaceId = s.initialFaceId := by
  cases o with
  | none => rfl
  | some c => simp [localOcclusionFD, fst_ite_pair]

theorem localOcclusionSimple_initialFaceId (o : Option Bool) (s : MonitorState) :
    (localOcclusionSimple o s).1.initialFaceId = s.initialFaceId := by
  cases o with
  | none => rfl
  | some c => simp [localOcclusionSimple, fst_ite_pair]

theorem occlusionFallback_initialFaceId (fd : Bool) (lb : List String)
    (inp : TickInput) (s : MonitorState) :
    (occlusionFallback fd lb inp s).1.initialFaceId = s.initialFaceId := by
  unfold occlusionFallback
  split
  · rfl
  · split
    · exact localOcclusionFD_initialFaceId _ _
    · exact localOcclusionSimple_initialFaceId _ _

theorem backgroundCheck_fst (lb : List String) (s : MonitorState) :
    (backgroundCheck lb s).1 = s := by
  unfold backgroundCheck
  split <;> rfl

theorem multipleFacesCheck_fst (lb : List String) (s : MonitorState) :
    (multipleFacesCheck lb s).1 = s := by
  unfold multipleFacesCheck
  split <;> rfl

theorem phoneCheck_fst (lb : List String) (s : MonitorState) :
    (phoneCheck lb s).1 = s := by
  unfold phoneCheck
  split <;> rfl

theorem startWindowCheck_initialFaceId (lb : List String) (bc : Option Bool) (s : MonitorState) :
    (startWindowCheck lb bc s).1.initialFaceId = s.initialFaceId := by
  unfold startWindowCheck
  split
  · split
    · rfl
    · cases bc with
      | none => rfl
      | some b => simp [fst_ite_pair]
  · rfl

theorem faceIdCheck_initialFaceId_some (fid : Option String) (s : MonitorState) (x : String)
    (h : s.initialFaceId = some x) : (faceIdCheck fid s).1.initialFaceId = some x := by
  cases fid with
  | none => exact h
  | some c =>
    have hs1 : (if s.initialFaceId = none then { s with initialFaceId := some c } else s) = s := by
      rw [h]; simp
    simp only [faceIdCheck, hs1]
    cases hl : s.lastFaceId with
    | none => exact h
    | some l =>
      dsimp only
      split <;> exact h

theorem noFaceCheck_initialFaceId (lb : List String) (s : MonitorState) :
    (noFaceCheck lb s).1.initialFaceId = s.initialFaceId := by
  simp [noFaceCheck, fst_ite_pair]

theorem gazeCheck_initialFaceId (lb : List String) (s : MonitorState) :
    (gazeCheck lb s).1.initialFaceId = s.initialFaceId := by
  simp [gazeCheck, fst_ite_pair]

theorem occlusionLabelCheck_initialFaceId (lb : List String) (s : MonitorState) :
    (occlusionLabelCheck lb s).1.initialFaceId = s.initialFaceId := by
  simp [occlusionLabelCheck, fst_ite_pair]

theorem captureAndAnalyze_initialFaceId (fd : Bool) (s : MonitorState) (inp : TickInput)
    (x : String) (h : s.initialFaceId = some x) :
    (captureAndAnalyze fd s inp).1.initialFaceId = some x := by
  unfold captureAndAnalyze
  apply vbind_inv (P := fun t => t.initialFaceId = some x)
  · rw [darkHeuristic_initialFaceId]; exact h
  · intro t ht
    cases inp.analysis with
    | none => exact ht
    | some res =>
      apply vbind_inv (P := fun t => t.initialFaceId = some x)
      · rw [occlusionFallback_initialFaceId]; exact ht
      · intro u1 hu1
        apply vbind_inv (P := fun t => t.initialFaceId = some x)
        · rw [backgroundCheck_fst]; exact hu1
        · intro u2 hu2
          apply vbind_inv (P := fun t => t.initialFaceId = some x)
          · rw [multipleFacesCheck_fst]; exact hu2
          · intro u3 hu3
            apply vbind_inv (P := fun t => t.initialFaceId = some x)
            · rw [phoneCheck_fst]; exact hu3
            · intro u4 hu4
              apply vbind_inv (P := fun t => t.initialFaceId = some x)
              · rw [startWindowCheck_initialFaceId]; exact hu4
              · intro u5 hu5
                apply vbind_inv (P := fun t => t.initialFaceId = some x)
                · exact faceIdCheck_initialFaceId_some _ _ _ hu5
                · intro u6 hu6
                  apply vbind_inv (P := fun t => t.initialFaceId = some x)
                  · rw [noFaceCheck_initialFaceId]; exact hu6
                  · intro u7 hu7
                    apply vbind_inv (P := fun t => t.initialFaceId = some x)
                    · rw [gazeCheck_initialFaceId]; exact hu7
                    · intro u8 hu8
                      rw [occlusionLabelCheck_initialFaceId]; exact hu8

theorem faceIdCheck_fires_iff (c : String) (t : MonitorState) :
    (faceIdCheck (some c) t).2 = some faceSwitchedViol ↔
      (t.lastFaceId ≠ none ∧ t.lastFaceId ≠ some c ∧
       t.initialFaceId ≠ none ∧ t.initialFaceId ≠ some c) := by
  cases hi : t.initialFaceId with
  | none =>
    have hs1 : (if t.initialFaceId = none then { t with initialFaceId := some c } else t) =
        { t with initialFaceId := some c } := by rw [hi]; simp
    simp only [faceIdCheck, hs1]
    cases hl : t.lastFaceId with
    | none => simp [hi]
    | some l =>
      dsimp only
      rw [if_neg]
      · simp [hi]
      · intro hcond
        exact hcond.2 rfl
  | some i =>
    have hs1 : (if t.initialFaceId = none then { t with initialFaceId := some c } else t) = t := by
      rw [hi]; simp
    simp only [faceIdCheck, hs1]
    cases hl : t.lastFaceId with
    | none => simp [hi, hl]
    | some l =>
      dsimp only
      by_cases hcl : c = l
      · rw [if_neg]
        · simp [hi, hl, hcl]
        · intro hcond
          exact hcond.1 hcl
      · by_cases hci : i = c
        · rw [if_neg]
          · simp [hi, hl, hci]
          · intro hcond
            exact hcond.2 (by rw [hi, hci])
        · rw [if_pos]
          · simp only [hi, hl]
            constructor
            · intro _
              refine ⟨by simp, ?_, by simp, ?_⟩
              · simp only [ne_eq, Option.some.injEq]
                intro he
                exact hcl he.symm
              · simp only [ne_eq, Option.some.injEq]
                exact hci
            · intro _
              trivial
          · constructor
            · exact hcl
            · rw [hi]
              simp only [ne_eq, Option.some.injEq]
              exact hci

theorem captureAndAnalyze_error_tick (fd : Bool) (s : MonitorState) (inp : TickInput)
    (herr : inp.analysis = none) :
    captureAndAnalyze fd s inp = darkHeuristic inp.darkCond s := by
  unfold captureAndAnalyze
  simp only [herr]
  exact vbind_pure _

/-! Theorems for the claims about the camera monitor. -/

/-- C3. Scenario B: after six benign start-window ticks, six consecutive
1 Hz ticks each reporting `no_face` produce exactly one `face_missing`
violation, emitted at the tick where the sustained no-face time reaches
5 seconds (the counter reads 5 at emission), and no violation on a
later tick: the first violation terminates the session through the
`onViolation` wiring, which unmounts the component and clears the
analysis interval. -/
theorem scenarioB_exactly_one_faceMissing :
    (ticksUntilViolation false initMonitor scenarioBInputs).2 = [faceMissingViol] ∧
    (ticksUntilViolation false initMonitor scenarioBInputs).1.consecutiveNoFace = 5 ∧
    (ticksUntilViolation false initMonitor scenarioBInputs).1.startFrames = 6 := by
  decide

/-- C2 counterexample. Three consecutive dark ticks: if the analysis
loop keeps running past the first emission (the CameraFeed accumulator
logic taken by itself), `camera_covered` is emitted at BOTH the second
and the third tick, and after the emitting second tick the
consecutive-dark-frame counter still reads 2 — it is never reset to 0
after the violation fires, contradicting the claimed reset and
no-duplicate behaviour. -/
theorem darkCounter_notReset_counterexample :
    (ticksAll false initMonitor [darkErrorInput, darkErrorInput, darkErrorInput]).2 =
      [cameraCoveredViol, cameraCoveredViol] ∧
    (ticksAll false initMonitor [darkErrorInput, darkErrorInput]).1.consecutiveDarkFrames = 2 := by
  decide

/-- C2 amended. On every tick whose frame is dark and whose previous
consecutive-dark count is already at least 1 (that is, on the second
consecutive dark tick and on every later one), `camera_covered` is
emitted and the counter advances to the previous count plus one — it is
not reset by the emission. At most one `camera_covered` per sustained
episode is observed in the deployed system only because the first
emitted violation terminates the session and stops the analysis loop,
as in the three-dark-tick run. -/
theorem cameraCovered_fires_and_counter_not_reset (fd : Bool) (s : MonitorState)
    (inp : TickInput) (hdark : inp.darkCond = true) (hcnt : 1 ≤ s.consecutiveDarkFrames) :
    (captureAndAnalyze fd s inp).2 = some cameraCoveredViol ∧
    (captureAndAnalyze fd s inp).1.consecutiveDarkFrames = s.consecutiveDarkFrames + 1 ∧
    (ticksUntilViolation false initMonitor [darkErrorInput, darkErrorInput, darkErrorInput]).2 =
      [cameraCoveredViol] := by
  have h2 : 2 ≤ s.consecutiveDarkFrames + 1 := Nat.succ_le_succ hcnt
  have hda : darkHeuristic inp.darkCond s =
      ({ s with consecutiveDarkFrames := s.consecutiveDarkFrames + 1 }, some cameraCoveredViol) := by
    simp only [darkHeuristic, hdark, if_true]
    rw [if_pos h2]
  refine ⟨?_, ?_, by decide⟩
  · unfold captureAndAnalyze
    rw [hda]
    rfl
  · unfold captureAndAnalyze
    rw [hda]
    rfl

/-- Witness for C2 (amended): a dark tick arriving when the counter is
already 1. -/
theorem cameraCovered_fires_and_counter_not_reset_witness :
    (captureAndAnalyze false { initMonitor with consecutiveDarkFrames := 1 } darkErrorInput).2 =
      some cameraCoveredViol ∧
    (captureAndAnalyze false { initMonitor with consecutiveDarkFrames := 1 }
      darkErrorInput).1.consecutiveDarkFrames = 2 :=
  ⟨(cameraCovered_fires_and_counter_not_reset false
      { initMonitor with consecutiveDarkFrames := 1 } darkErrorInput rfl (by decide)).1,
   (cameraCovered_fires_and_counter_not_reset false
      { initMonitor with consecutiveDarkFrames := 1 } darkErrorInput rfl (by decide)).2.1⟩

/-- C4 counterexample. A single tick whose analysis call succeeds with
an empty label set, inside the start window, immediately emits the
label-derived `face_not_visible_at_start` violation (the check reads
the absence of `face_present` from the empty set), so an empty response
is not treated as no new information. -/
theorem emptyResponse_fires_counterexample :
    (captureAndAnalyze false initMonitor emptyLabelsInput).2 = some faceNotVisibleStartViol := by
  decide

/-- C4 amended. A FAILED (thrown) analysis call is treated as no new
information: the whole tick reduces to the local darkness heuristic, so
every label-driven accumulator (`no-face`, gaze, occlusion, blur, start
frames, face ids) is unchanged and the only violation such a tick can
emit is `camera_covered`. An EMPTY successful response, however, is
treated as an absent face: inside the start window it immediately fires
`face_not_visible_at_start`, and past the start window five consecutive
empty responses fire `face_missing`. -/
theorem analysisError_no_label_violation (fd : Bool) (s : MonitorState) (inp : TickInput)
    (herr : inp.analysis = none) :
    ((captureAndAnalyze fd s inp).1.consecutiveNoFace = s.consecutiveNoFace ∧
     (captureAndAnalyze fd s inp).1.consecutiveGazeAway = s.consecutiveGazeAway ∧
     (captureAndAnalyze fd s inp).1.consecutiveOcclusion = s.consecutiveOcclusion ∧
     (captureAndAnalyze fd s inp).1.consecutiveBlurFrames = s.consecutiveBlurFrames ∧
     (captureAndAnalyze fd s inp).1.startFrames = s.startFrames ∧
     (captureAndAnalyze fd s inp).1.initialFaceId = s.initialFaceId ∧
     (captureAndAnalyze fd s inp).1.lastFaceId = s.lastFaceId) ∧
    ((captureAndAnalyze fd s inp).2 = none ∨
     (captureAndAnalyze fd s inp).2 = some cameraCoveredViol) ∧
    (captureAndAnalyze false initMonitor emptyLabelsInput).2 = some faceNotVisibleStartViol ∧
    (ticksUntilViolation false initMonitor
        (startWindowPrelude ++ List.replicate 5 emptyLabelsInput)).2 = [faceMissingViol] := by
  have he := captureAndAnalyze_error_tick fd s inp herr
  rw [he]
  refine ⟨?_, ?_, by decide, by decide⟩
  · simp [darkHeuristic, fst_ite_pair]
  · by_cases hc : 2 ≤ (if inp.darkCond = true then s.consecutiveDarkFrames + 1 else 0)
    · right
      dsimp only [darkHeuristic]
      rw [if_pos hc]
    · left
      dsimp only [darkHeuristic]
      rw [if_neg hc]

/-- Witness for C4 (amended): a dark tick on which the analysis call
throws, from the fresh monitor state. -/
theorem analysisError_no_label_violation_witness :
    (captureAndAnalyze false initMonitor darkErrorInput).1.consecutiveNoFace =
      initMonitor.consecutiveNoFace ∧
    (captureAndAnalyze false initMonitor darkErrorInput).1.startFrames =
      initMonitor.startFrames ∧
    ((captureAndAnalyze false initMonitor darkErrorInput).2 = none ∨
     (captureAndAnalyze false initMonitor darkErrorInput).2 = some cameraCoveredViol) :=
  ⟨(analysisError_no_label_violation false initMonitor darkErrorInput rfl).1.1,
   (analysisError_no_label_violation false initMonitor darkErrorInput rfl).1.2.2.2.2.1,
   (analysisError_no_label_violation false initMonitor darkErrorInput rfl).2.1⟩

/-- C7 counterexample. Identity signature a on the first tick, b on the
second: the current signature b differs from both the prior last id a
and the initial id a, and the `face_switched` violation DOES fire, so a
signature differing from both is sufficient, not insufficient. -/
theorem faceSwitch_differs_from_both_fires_counterexample :
    (ticksAll false initMonitor [faceIdInput "a", faceIdInput "b"]).2 = [faceSwitchedViol] ∧
    (ticksAll false initMonitor [faceIdInput "a"]).1.initialFaceId = some "a" ∧
    (ticksAll false initMonitor [faceIdInput "a"]).1.lastFaceId = some "a" := by
  decide

/-- C7 amended. The initial face id is written at most once: once set,
no analysis tick ever changes it. The `face_switched` violation fires
exactly when a previous id exists and the current signature differs
from BOTH the previous id and the initial id — equality with either one
suppresses it; in particular a signature differing from both does fire,
and flicker back to the initial id does not. -/
theorem faceIdentity_writeOnce_and_fire_condition (fd : Bool) (s : MonitorState)
    (inp : TickInput) (x : String) (hinit : s.initialFaceId = some x) :
    (captureAndAnalyze fd s inp).1.initialFaceId = some x ∧
    (∀ (c : String) (t : MonitorState),
      (faceIdCheck (some c) t).2 = some faceSwitchedViol ↔
        (t.lastFaceId ≠ none ∧ t.lastFaceId ≠ some c ∧
         t.initialFaceId ≠ none ∧ t.initialFaceId ≠ some c)) := by
  constructor
  · exact captureAndAnalyze_initialFaceId fd s inp x hinit
  · intro c t
    exact faceIdCheck_fires_iff c t

/-- Witness for C7 (amended): the initial id a survives a tick whose
analyzer reports the different id b, and the fire condition evaluated
at that configuration. -/
theorem faceIdentity_writeOnce_witness :
    (captureAndAnalyze false
        { initMonitor with initialFaceId := some "a", lastFaceId := some "a" }
        (faceIdInput "b")).1.initialFaceId = some "a" ∧
    ((faceIdCheck (some "b")
        { initMonitor with initialFaceId := some "a", lastFaceId := some "a" }).2 =
          some faceSwitchedViol ↔
      (({ initMonitor with initialFaceId := some "a", lastFaceId := some "a" } :
          MonitorState).lastFaceId ≠ none ∧
       ({ initMonitor with initialFaceId := some "a", lastFaceId := some "a" } :
          MonitorState).lastFaceId ≠ some "b" ∧
       ({ initMonitor with initialFaceId := some "a", lastFaceId := some "a" } :
          MonitorState).initialFaceId ≠ none ∧
       ({ initMonitor with initialFaceId := some "a", lastFaceId := some "a" } :
          MonitorState).initialFaceId ≠ some "b")) :=
  ⟨(faceIdentity_writeOnce_and_fire_condition false
      { initMonitor with initialFaceId := some "a", lastFaceId := some "a" }
      (faceIdInput "b") "a" rfl).1,
   (faceIdentity_writeOnce_and_fire_condition false
      { initMonitor with initialFaceId := some "a", lastFaceId := some "a" }
      (faceIdInput "b") "a" rfl).2 "b"
      { initMonitor with initialFaceId := some "a", lastFaceId := some "a" }⟩
